import Mathlib

/-!
Verification of the Store-Backend order/cart core.

This file is a shallow embedding of the order-checkout and cart workflow of
the Store-Backend Django application (apps `Order`, `Cart`, `Product`).
Monetary amounts are embedded as exact integers in cents (the application
stores them as `Decimal` with two decimal places, so cent arithmetic is
exact); the one sub-cent intermediate value, the tax `subtotal * 0.08`, is
carried in units of 1/10000 dollar, which is again exact.  Database rows
become Lean structures, querysets become lists, and `transaction.atomic`
blocks become functions that return the original store on error.  Fields of
the Django models that no claim touches (addresses, timestamps, free-text
notes, image handling) are omitted; everything that is modelled follows the
Python source line by line.
-/

namespace StoreBackend

/-- Order status values, from `Order.ORDER_STATUS_CHOICES`
(`src/Order/models.py`). -/
inductive OrderStatus
  | pending | confirmed | processing | shipped | delivered | cancelled | refunded
deriving DecidableEq, Repr

/-- Payment status values, from `Order.PAYMENT_STATUS_CHOICES`. -/
inductive PaymentStatus
  | pending | completed | failed | refunded
deriving DecidableEq, Repr

/-- Transaction types from `Transaction.TRANSACTION_TYPE_CHOICES`
(`payment`, `refund`, `partial_refund`). -/
inductive TxnType
  | payment | refundTx | partRefundTx
deriving DecidableEq, Repr

/-- A `Product` row (`src/Product/models.py`).  `priceCents` is
`Product.price` in cents; `quantity` is the stock counter (an `Int`, since
the Python code manipulates it as a plain integer in memory). -/
structure Product where
  id : Nat
  priceCents : Int
  is_active : Bool
  track_quantity : Bool
  quantity : Int
deriving DecidableEq, Repr

/-- A `ProductVariant` row.  `priceCents = none` models the NULL price
(`Leave blank to use product price`); note that the Python accessor
`effective_price` tests `self.price` for *truthiness*, so a stored price of
0 also falls back to the parent product price. -/
structure Variant where
  id : Nat
  product_id : Nat
  priceCents : Option Int
  quantity : Int
  is_active : Bool
deriving DecidableEq, Repr

/-- `Product.objects.get(id=pid, is_active=True)` on a list-backed table:
first row with the matching id that is active. -/
def findActiveProduct (ps : List Product) (pid : Nat) : Option Product :=
  ps.find? (fun p => p.id == pid && p.is_active)

/-- `Product.objects.get(id=pid)` (no `is_active` filter, as used inside
`OrderCreateSerializer.create`). -/
def findProduct (ps : List Product) (pid : Nat) : Option Product :=
  ps.find? (fun p => p.id == pid)

/-- `ProductVariant.objects.get(id=vid, is_active=True)`. -/
def findActiveVariant (vs : List Variant) (vid : Nat) : Option Variant :=
  vs.find? (fun v => v.id == vid && v.is_active)

/-- `ProductVariant.objects.get(id=vid)`. -/
def findVariant (vs : List Variant) (vid : Nat) : Option Variant :=
  vs.find? (fun v => v.id == vid)

/-- `ProductVariant.effective_price`:
`self.price if self.price else self.product.price`.  The parent product is
resolved through the variant's own foreign key; a broken foreign key (which
Django's integrity rules exclude) defaults to 0. -/
def effectivePriceCents (ps : List Product) (v : Variant) : Int :=
  match v.priceCents with
  | some c =>
      if c ≠ 0 then c
      else ((findProduct ps v.product_id).map Product.priceCents).getD 0
  | none => ((findProduct ps v.product_id).map Product.priceCents).getD 0

/-- One entry of the `items` list of a checkout request
(`OrderItemCreateSerializer` fields: `product_id`, `variant_id`,
`quantity`, optional `unit_price`). -/
structure ItemData where
  product_id : Nat
  variant_id : Option Nat
  quantity : Int
  unit_priceCents : Option Int
deriving DecidableEq, Repr

/-- Python truthiness of an optional integer id (`if variant_id:`): `None`
and `0` are both falsy. -/
def truthyId (v : Option Nat) : Option Nat :=
  match v with
  | some 0 => none
  | x => x

/-- `OrderCreateSerializer._normalize_shipping_method`: falsy input gives
`standard`; the mapping recognises the three display names and the three
codes; anything else falls back to `standard`. -/
def normalizeShippingMethod (input : Option String) : String :=
  match input with
  | none => "standard"
  | some s =>
      if s = "" then "standard"
      else if s = "Standard Shipping" then "standard"
      else if s = "Express Shipping" then "express"
      else if s = "Overnight Shipping" then "overnight"
      else if s = "standard" then "standard"
      else if s = "express" then "express"
      else if s = "overnight" then "overnight"
      else "standard"

/-- The inputs `_normalize_shipping_method` recognises (the keys of its
`method_mapping` dictionary). -/
def recognizedShippingInputs : List String :=
  ["Standard Shipping", "Express Shipping", "Overnight Shipping",
   "standard", "express", "overnight"]

/-- `OrderCreateSerializer._get_shipping_cost`: the fixed cost table, with
free standard shipping when `subtotal >= 50` (dollars, i.e. 5000 cents). -/
def getShippingCost (method : String) (subtotalCents : Int) : Int :=
  let cost : Int :=
    if method = "standard" then 0
    else if method = "express" then 1599
    else if method = "overnight" then 2999
    else 0
  if method = "standard" ∧ subtotalCents ≥ 5000 then 0 else cost

/-- Quantization of an exact amount of `n` ten-thousandths of a dollar to
whole cents, rounding half to even.  This is what happens when the
serializer's exact `Decimal` value `subtotal * Decimal('0.08')` is stored
into the `tax_amount = DecimalField(decimal_places=2)` column: Django's
`format_number` quantizes with the default `ROUND_HALF_EVEN` context. -/
def halfEvenDiv100 (n : Int) : Int :=
  let q := n / 100
  let r := n % 100
  if r < 50 then q
  else if 50 < r then q + 1
  else if q % 2 = 0 then q else q + 1

/-- The claim's tax formula, written independently of the code path:
`round(subtotal * 0.08, 2)` expressed in cents.  With `s` the subtotal in
cents, the tax in cents is `round(s * 8 / 100)` over the exact rationals
(`Mathlib.round`; ties cannot occur for this family, see
`halfEvenDiv100_eight`). -/
def claimTaxCents (s : Int) : Int :=
  round ((s : ℚ) * 8 / 100)

/-- An `Order` row, restricted to the fields the claims are about.  Created
orders start `pending`/`pending` (model defaults). -/
structure OrderRow where
  oid : Nat
  status : OrderStatus
  payment_status : PaymentStatus
  subtotalCents : Int
  shippingCostCents : Int
  taxCents : Int
  totalCents : Int
  shipping_method : String
deriving DecidableEq, Repr

/-- An `OrderItem` row (`src/Order/models.py`): quantity, frozen unit
price, and `total_price = unit_price * quantity` computed in
`OrderItem.save`. -/
structure OrderItemRow where
  orderOid : Nat
  product_id : Nat
  variant_id : Option Nat
  quantity : Int
  unit_priceCents : Int
  total_priceCents : Int
deriving DecidableEq, Repr

/-- A `Transaction` row.  `order` is a `OneToOneField`, so at most one
transaction may exist per order; an insert that would violate this raises
`IntegrityError` (modelled at the call sites). -/
structure TxnRow where
  orderOid : Nat
  ttype : TxnType
  amountCents : Int
  tstatus : String
  payment_method : String
deriving DecidableEq, Repr

/-- An `OrderStatusHistory` row (append-only). -/
structure HistRow where
  orderOid : Nat
  hstatus : OrderStatus
deriving DecidableEq, Repr

/-- A `DeliveryEvent` row (append-only). -/
structure EventRow where
  orderOid : Nat
  event_type : String
deriving DecidableEq, Repr

/-- The relational store backing the application: one list per table,
plus the next auto-generated order primary key. -/
structure Store where
  products : List Product
  variants : List Variant
  orders : List OrderRow
  orderItems : List OrderItemRow
  transactions : List TxnRow
  history : List HistRow
  events : List EventRow
  nextOid : Nat
deriving DecidableEq, Repr

/-- A checkout request (`OrderCreateSerializer` write-only fields that the
claims touch).  `payment_info` records whether the caller supplied payment
information; the `frontend_*` fields are the caller-supplied overrides for
the computed amounts, in cents. -/
structure OrderRequest where
  items : List ItemData
  payment_info : Bool
  shipping_method_input : Option String
  frontend_subtotal : Option Int
  frontend_shipping_cost : Option Int
  frontend_tax : Option Int
  frontend_total : Option Int
deriving DecidableEq, Repr

/-- Fault-injection flags for the best-effort side-record writes: whether
the `OrderStatusHistory` append in the serializer, the `DeliveryEvent`
append in the serializer, and the `_create_initial_delivery_events` call in
the view raise when executed. -/
structure SideFx where
  serializerHistFails : Bool
  serializerEventFails : Bool
  viewEventsFail : Bool
deriving DecidableEq, Repr

/-- The no-failure fault assignment. -/
def sideFxNone : SideFx := ⟨false, false, false⟩

/-- Field-level validation of one requested item
(`OrderItemCreateSerializer.validate_product_id` / `validate_variant_id` /
`validate_quantity`): product active, variant (when truthy) active,
quantity positive. -/
def validateItemFields (ps : List Product) (vs : List Variant) (it : ItemData) :
    Except String Unit :=
  match findActiveProduct ps it.product_id with
  | none => .error "Product not found or inactive"
  | some _ =>
      match truthyId it.variant_id with
      | some vid =>
          match findActiveVariant vs vid with
          | none => .error "Product variant not found or inactive"
          | some _ =>
              if it.quantity ≤ 0 then .error "Quantity must be greater than 0"
              else .ok ()
      | none =>
          if it.quantity ≤ 0 then .error "Quantity must be greater than 0"
          else .ok ()

/-- Field-level validation of the whole `items` list, in order. -/
def validateAllItemFields (ps : List Product) (vs : List Variant) :
    List ItemData → Except String Unit
  | [] => .ok ()
  | it :: rest =>
      match validateItemFields ps vs it with
      | .error e => .error e
      | .ok _ => validateAllItemFields ps vs rest

/-- The `for item_data in value` loop of
`OrderCreateSerializer.validate_items`: each product must exist and be
active; when the product has `track_quantity` the requested quantity must
not exceed **the product's** stock counter `product.quantity`.  (No variant
is ever consulted: the function does not even receive the variant table.) -/
def validateItemsLoop (ps : List Product) : List ItemData → Except String Unit
  | [] => .ok ()
  | it :: rest =>
      match findActiveProduct ps it.product_id with
      | none => .error "Product not found"
      | some p =>
          if p.track_quantity = true ∧ p.quantity < it.quantity then
            .error "Insufficient stock"
          else validateItemsLoop ps rest

/-- `OrderCreateSerializer.validate_items`: the list must be non-empty,
then the per-item loop runs. -/
def validateItems (ps : List Product) (items : List ItemData) : Except String Unit :=
  if items.isEmpty then .error "Order must contain at least one item"
  else validateItemsLoop ps items

/-- Unit-price resolution inside `OrderCreateSerializer.create`:
`unit_price = item_data.get('unit_price'); if not unit_price: unit_price =
variant.effective_price if variant else product.price`.  Note the
truthiness test: a caller-supplied override of 0 is ignored. -/
def resolveUnitPrice (ps : List Product) (vs : List Variant) (it : ItemData) :
    Except String Int :=
  match findProduct ps it.product_id with
  | none => .error "Invalid product or variant"
  | some p =>
      match truthyId it.variant_id with
      | some vid =>
          match findVariant vs vid with
          | none => .error "Invalid product or variant"
          | some v =>
              .ok (match it.unit_priceCents with
                   | some c => if c ≠ 0 then c else effectivePriceCents ps v
                   | none => effectivePriceCents ps v)
      | none =>
          .ok (match it.unit_priceCents with
               | some c => if c ≠ 0 then c else p.priceCents
               | none => p.priceCents)

/-- The `subtotal += Decimal(str(unit_price)) * quantity` accumulation loop
of `OrderCreateSerializer.create` (exact decimal arithmetic: cents). -/
def computeSubtotalLoop (ps : List Product) (vs : List Variant) :
    List ItemData → Int → Except String Int
  | [], acc => .ok acc
  | it :: rest, acc =>
      match resolveUnitPrice ps vs it with
      | .error e => .error e
      | .ok u => computeSubtotalLoop ps vs rest (acc + u * it.quantity)

/-- Subtotal computation starting from `Decimal('0.00')`. -/
def computeSubtotal (ps : List Product) (vs : List Variant) (items : List ItemData) :
    Except String Int :=
  computeSubtotalLoop ps vs items 0

/-- The monetary amounts and shipping method computed by
`OrderCreateSerializer.create` before the order is persisted. -/
structure Amounts where
  subtotalCents : Int
  shippingCostCents : Int
  taxCents : Int
  totalCents : Int
  shipping_method : String
deriving DecidableEq, Repr

/-- Subtotal resolution of `OrderCreateSerializer.create` (lines 310-331):
`if frontend_subtotal:` — a *truthy* caller override wins (zero is ignored),
else the exact item sum is computed. -/
def subtotalResolved (ps : List Product) (vs : List Variant) (req : OrderRequest) :
    Except String Int :=
  match req.frontend_subtotal with
  | some s => if s ≠ 0 then .ok s else computeSubtotal ps vs req.items
  | none => computeSubtotal ps vs req.items

/-- The remaining amount computation, once the subtotal is fixed: shipping
method normalization, shipping cost (caller override when not None, else
the table), tax (caller override when not None, else the exact
`subtotal * 0.08`, which the 2-decimal `tax_amount` column stores rounded
half-to-even), and total (caller override when not None, else
`subtotal + shipping + tax` with the unrounded tax, stored rounded). -/
def computeAmountsFrom (req : OrderRequest) (subtotal : Int) : Amounts :=
  let method := normalizeShippingMethod req.shipping_method_input
  let shipping :=
    match req.frontend_shipping_cost with
    | some c => c
    | none => getShippingCost method subtotal
  let tax4 := subtotal * 8
  let taxCents :=
    match req.frontend_tax with
    | some t => t
    | none => halfEvenDiv100 tax4
  let totalCents :=
    match req.frontend_total with
    | some t => t
    | none =>
        match req.frontend_tax with
        | some t => subtotal + shipping + t
        | none => halfEvenDiv100 (subtotal * 100 + shipping * 100 + tax4)
  ⟨subtotal, shipping, taxCents, totalCents, method⟩

def computeAmounts (ps : List Product) (vs : List Variant) (req : OrderRequest) :
    Except String Amounts :=
  match subtotalResolved ps vs req with
  | .error e => .error e
  | .ok subtotal => .ok (computeAmountsFrom req subtotal)

/-- The `Order` header row persisted by `super().create(validated_data)`:
fresh primary key, default `pending` statuses, computed amounts. -/
def mkOrderRow (oid : Nat) (a : Amounts) : OrderRow :=
  ⟨oid, .pending, .pending, a.subtotalCents, a.shippingCostCents,
   a.taxCents, a.totalCents, a.shipping_method⟩

/-- Stock decrement `product.quantity -= quantity; product.save()`: updates
the product row in place.  The variant table is never touched. -/
def decrementProducts (ps : List Product) (pid : Nat) (qty : Int) : List Product :=
  ps.map (fun p => if p.id == pid then { p with quantity := p.quantity - qty } else p)

/-- One iteration of the order-item creation loop of
`OrderCreateSerializer.create` (lines 395-422): look the product (and the
truthy variant) up again, resolve the unit price, append the `OrderItem`
snapshot row, and, when the product has `track_quantity`, decrement **the
product's** stock counter — the variant's counter is never decremented. -/
def createItemAndDecrement (st : Store) (oid : Nat) (it : ItemData) :
    Except String Store :=
  match findProduct st.products it.product_id with
  | none => .error "Error creating order item"
  | some p =>
      let mkRow (up : Int) (vid : Option Nat) : OrderItemRow :=
        ⟨oid, it.product_id, vid, it.quantity, up, up * it.quantity⟩
      let finish (up : Int) (vid : Option Nat) : Store :=
        let st1 := { st with orderItems := st.orderItems ++ [mkRow up vid] }
        if p.track_quantity then
          { st1 with products := decrementProducts st1.products it.product_id it.quantity }
        else st1
      match truthyId it.variant_id with
      | some vid =>
          match findVariant st.variants vid with
          | none => .error "Error creating order item"
          | some v =>
              .ok (finish
                    (match it.unit_priceCents with
                     | some c => if c ≠ 0 then c else effectivePriceCents st.products v
                     | none => effectivePriceCents st.products v)
                    (some vid))
      | none =>
          .ok (finish
                (match it.unit_priceCents with
                 | some c => if c ≠ 0 then c else p.priceCents
                 | none => p.priceCents)
                none)

/-- The whole `for item_data in items_data` creation loop. -/
def createItemsLoop (oid : Nat) : Store → List ItemData → Except String Store
  | st, [] => .ok st
  | st, it :: rest =>
      match createItemAndDecrement st oid it with
      | .error e => .error e
      | .ok st1 => createItemsLoop oid st1 rest

/-- Update an order row in place (`order.save()` after mutating fields). -/
def setOrderFields (st : Store) (oid : Nat)
    (f : OrderRow → OrderRow) : Store :=
  { st with orders := st.orders.map (fun o => if o.oid == oid then f o else o) }

/-- The payment step of `OrderCreateSerializer.create` (lines 424-446):
when payment info was supplied, create a completed `payment` transaction
for the full order total and set the order's `payment_status` to
`completed`.  The freshly created order has no transaction yet, so the
one-to-one constraint cannot fire here. -/
def createPaymentTxn (st : Store) (oid : Nat) (totalCents : Int) : Store :=
  let st1 := { st with transactions :=
    st.transactions ++ [⟨oid, .payment, totalCents, "completed", "credit_card"⟩] }
  setOrderFields st1 oid (fun o => { o with payment_status := .completed })

/-- The two best-effort side-record appends at the end of
`OrderCreateSerializer.create` (lines 448-472): a `pending` status-history
row and a `picked_up` delivery event.  Each is wrapped in
`try/except: pass`, so a failing append is skipped and the order is kept. -/
def appendSideRecords (st : Store) (oid : Nat) (fx : SideFx) : Store :=
  let st1 :=
    if fx.serializerHistFails then st
    else { st with history := st.history ++ [⟨oid, .pending⟩] }
  if fx.serializerEventFails then st1
  else { st1 with events := st1.events ++ [⟨oid, "picked_up"⟩] }

/-- `OrderCreateSerializer.create` without its trailing best-effort
side-record writes: validation (field-level, then `validate_items`),
amount computation, order header insert, item insert plus stock decrement,
and the optional payment transaction. -/
def serializerCore (st : Store) (req : OrderRequest) : Except String (Store × Nat) :=
  match validateAllItemFields st.products st.variants req.items with
  | .error e => .error e
  | .ok _ =>
      match validateItems st.products req.items with
      | .error e => .error e
      | .ok _ =>
          match computeAmounts st.products st.variants req with
          | .error e => .error e
          | .ok a =>
              let oid := st.nextOid
              let st1 := { st with orders := st.orders ++ [mkOrderRow oid a],
                                   nextOid := oid + 1 }
              match createItemsLoop oid st1 req.items with
              | .error e => .error e
              | .ok st2 =>
                  .ok (if req.payment_info then createPaymentTxn st2 oid a.totalCents
                       else st2, oid)

/-- `OrderCreateSerializer.create` including the swallowed side-record
appends.  `serializer.save()` raises exactly when `serializerCore` does. -/
def serializerCreate (st : Store) (req : OrderRequest) (fx : SideFx) :
    Except String (Store × Nat) :=
  match serializerCore st req with
  | .error e => .error e
  | .ok (s, oid) => .ok (appendSideRecords s oid fx, oid)

/-- `OrderCreateView._create_initial_delivery_events`: appends a
`picked_up` event and, for express/overnight orders, an extra `in_transit`
event.  On failure it returns an error string, which the view then raises
*inside* the surrounding `transaction.atomic` block. -/
def createInitialDeliveryEvents (st : Store) (oid : Nat) (fx : SideFx) :
    Except String Store :=
  if fx.viewEventsFail then .error "Failed to create initial delivery events"
  else
    match st.orders.find? (fun o => o.oid == oid) with
    | none => .error "Failed to create initial delivery events"
    | some o =>
        let st1 := { st with events := st.events ++ [⟨oid, "picked_up"⟩] }
        .ok (if o.shipping_method = "express" ∨ o.shipping_method = "overnight" then
               { st1 with events := st1.events ++ [⟨oid, "in_transit"⟩] }
             else st1)

/-- `OrderCreateView.create`: runs the serializer and the initial delivery
events inside one `transaction.atomic` block; any exception rolls the
whole store back to its pre-request state and yields an error response. -/
def orderCreateViewBody (st : Store) (req : OrderRequest) (fx : SideFx) :
    Except String (Store × Nat) :=
  match serializerCreate st req fx with
  | .error e => .error e
  | .ok (s1, oid) =>
      match createInitialDeliveryEvents s1 oid fx with
      | .error e => .error e
      | .ok s2 => .ok (s2, oid)

/-- The `transaction.atomic` / exception-handler wrapper of
`OrderCreateView.create`: on any exception the store reverts to its
pre-request state and the response is an error payload. -/
def orderCreateView (st : Store) (req : OrderRequest) (fx : SideFx) :
    Except String Nat × Store :=
  match orderCreateViewBody st req fx with
  | .error e => (.error e, st)
  | .ok (s2, oid) => (.ok oid, s2)

/-- Boolean success test for an `Except` response. -/
def exceptIsOk {α : Type} (e : Except String α) : Bool :=
  match e with
  | .ok _ => true
  | .error _ => false

/-- Response of `OrderCancelView.update`.  `cannotCancel` carries the
current status, which the Python response interpolates into the message
`cannot be cancelled. Current status: ...`. -/
inductive CancelResp
  | ok
  | cannotCancel (current : OrderStatus)
  | notFound
deriving DecidableEq, Repr

/-- `OrderCancelView.update`: cancellation is allowed only from
`pending`/`confirmed`; otherwise a 400 response naming the current status
is returned and nothing changes.  On success the status becomes
`cancelled` and a history row and a `returned` delivery event are
appended. -/
def orderCancelView (st : Store) (oid : Nat) : CancelResp × Store :=
  match st.orders.find? (fun o => o.oid == oid) with
  | none => (.notFound, st)
  | some o =>
      if o.status = .pending ∨ o.status = .confirmed then
        let st1 := setOrderFields st oid (fun r => { r with status := .cancelled })
        let st2 := { st1 with history := st1.history ++ [(⟨oid, .cancelled⟩ : HistRow)] }
        let st3 := { st2 with events := st2.events ++ [(⟨oid, "returned"⟩ : EventRow)] }
        (.ok, st3)
      else (.cannotCancel o.status, st)

/-- Response of `OrderUpdateView.update`. -/
inductive UpdateResp
  | ok
  | notFound
deriving DecidableEq, Repr

/-- The admin order-update operation (`OrderUpdateView.update` driving
`OrderUpdateSerializer.update`): the serializer performs **no transition
validation** — any status among the model choices is written verbatim by
`super().update`; a history row is appended when the status changed. -/
def orderUpdateApply (st : Store) (oid : Nat) (newStatus : Option OrderStatus) :
    UpdateResp × Store :=
  match st.orders.find? (fun o => o.oid == oid) with
  | none => (.notFound, st)
  | some o =>
      match newStatus with
      | none => (.ok, st)
      | some ns =>
          let st1 := setOrderFields st oid (fun r => { r with status := ns })
          let st2 :=
            if ns ≠ o.status then { st1 with history := st1.history ++ [⟨oid, ns⟩] }
            else st1
          (.ok, st2)

/-- Response of the `refund_order` view. -/
inductive RefundResp
  | ok (amountCents : Int)
  | invalidState (current : OrderStatus)
  | notFound
  | serverError
deriving DecidableEq, Repr

/-- Boolean success test for a refund response. -/
def refundSucceeded (r : RefundResp) : Bool :=
  match r with
  | .ok _ => true
  | _ => false

/-- The `refund_order` view (`src/Order/views.py` lines 623-681): refund is
rejected with a 400 when the order status is outside
`{delivered, shipped}`.  The refund amount defaults to the order's total
and is **not** compared against it (the `TransactionCreateSerializer`,
which has such a check, is never invoked by any view).  Creating the
refund `Transaction` violates the `OneToOneField` when the order already
has a transaction; the resulting `IntegrityError` is caught by the
catch-all handler and returned as a 500, before any field of the order was
updated.  On success the refund transaction is recorded (payment method
`credit_card`, since a successful insert implies no prior transaction
existed for `hasattr` to find), the order's status and payment status
become `refunded`, and a history row is appended. -/
def refundOrderView (st : Store) (oid : Nat) (amount : Option Int) :
    RefundResp × Store :=
  match st.orders.find? (fun o => o.oid == oid) with
  | none => (.notFound, st)
  | some o =>
      if o.status = .delivered ∨ o.status = .shipped then
        let refundAmount := amount.getD o.totalCents
        match st.transactions.find? (fun t => t.orderOid == oid) with
        | some _ => (.serverError, st)
        | none =>
            let st1 := { st with transactions :=
              st.transactions ++ [⟨oid, .refundTx, refundAmount, "completed", "credit_card"⟩] }
            let st2 := setOrderFields st1 oid
              (fun r => { r with status := .refunded, payment_status := .refunded })
            let st3 := { st2 with history := st2.history ++ [⟨oid, .refunded⟩] }
            (.ok refundAmount, st3)
      else (.invalidState o.status, st)

/-- Current status of an order in a store, looked up by id. -/
def orderStatusIn (st : Store) (oid : Nat) : Option OrderStatus :=
  (st.orders.find? (fun o => o.oid == oid)).map OrderRow.status

/-- A `CartItem` row (`src/Cart/models.py`), restricted to the fields the
claims are about (the price snapshot is not claimed).  `unique_together =
['cart', 'product', 'variant']` is the at-most-one-row-per-key invariant
proved below; all rows belong to the single cart of one user. -/
structure CartItemRow where
  product_id : Nat
  variant_id : Option Nat
  quantity : Int
deriving DecidableEq, Repr

/-- The key of the `unique_together` constraint. -/
def cartKey (r : CartItemRow) : Nat × Option Nat :=
  (r.product_id, r.variant_id)

/-- Response of `AddToCartView.create`. -/
inductive CartResp
  | created (quantity : Int)
  | updated (newQuantity : Int)
  | badRequest (msg : String)
deriving DecidableEq, Repr

/-- `AddToCartSerializer.validate_variant_id`: checked only when the id
is not None (an `is not None` test, not truthiness). -/
def validateVariantField (vs : List Variant) (vid : Option Nat) : Except String Unit :=
  match vid with
  | none => .ok ()
  | some v0 =>
      match findActiveVariant vs v0 with
      | none => .error "Product variant not found or not available."
      | some _ => .ok ()

/-- `AddToCartSerializer.validate_quantity`: positive and at most 99. -/
def validateQuantityField (qty : Int) : Except String Unit :=
  if qty ≤ 0 then .error "Quantity must be greater than 0."
  else if 99 < qty then .error "Maximum quantity allowed is 99."
  else .ok ()

/-- `AddToCartSerializer.validate` (cross-field): when the product tracks
quantity, the requested amount alone must not exceed the stock of the
truthy variant (else of the product); then a truthy variant must belong to
the product. -/
def cartCrossValidate (ps : List Product) (vs : List Variant)
    (pid : Nat) (vid : Option Nat) (qty : Int) : Except String Unit :=
  match findProduct ps pid with
  | none => .error "Invalid product or variant."
  | some p =>
      let stockCheck : Except String Unit :=
        if p.track_quantity then
          match truthyId vid with
          | some v0 =>
              match findVariant vs v0 with
              | none => .error "Invalid product or variant."
              | some v =>
                  if v.quantity < qty then .error "Only a limited number of items available in stock."
                  else .ok ()
          | none =>
              if p.quantity < qty then .error "Only a limited number of items available in stock."
              else .ok ()
        else .ok ()
      match stockCheck with
      | .error e => .error e
      | .ok _ =>
          match truthyId vid with
          | some v0 =>
              match findVariant vs v0 with
              | none => .error "Invalid product or variant."
              | some v =>
                  if v.product_id ≠ pid then
                    .error "Selected variant does not belong to this product."
                  else .ok ()
          | none => .ok ()

/-- All validation run by `serializer.is_valid(raise_exception=True)` for an
add-to-cart request: the three field validators, then the cross-field
validator. -/
def addToCartValidate (ps : List Product) (vs : List Variant)
    (pid : Nat) (vid : Option Nat) (qty : Int) : Except String Unit :=
  match findActiveProduct ps pid with
  | none => .error "Product not found or not available."
  | some _ =>
      match validateVariantField vs vid with
      | .error e => .error e
      | .ok _ =>
          match validateQuantityField qty with
          | .error e => .error e
          | .ok _ => cartCrossValidate ps vs pid vid qty

/-- Replace the quantity of the first cart row with the given key
(`cart_item.quantity = new_quantity; cart_item.save()`). -/
def updateFirstQuantity : List CartItemRow → Nat → Option Nat → Int → List CartItemRow
  | [], _, _, _ => []
  | r :: rest, pid, vid, q =>
      if r.product_id = pid ∧ r.variant_id = vid then { r with quantity := q } :: rest
      else r :: updateFirstQuantity rest pid vid q

/-- The duplicate-handling core of `AddToCartView.create` (lines 69-102):
an existing row with the same (product, variant) key gets its quantity
increased — after re-checking the **combined** quantity against the stock
of the selected variant (else the product) when `track_quantity` is set —
and a missing row is created with the requested quantity. -/
def addToCartCore (p : Product) (vOpt : Option Variant) (cart : List CartItemRow)
    (pid : Nat) (vidKey : Option Nat) (qty : Int) : CartResp × List CartItemRow :=
  match cart.find? (fun r => r.product_id == pid && r.variant_id == vidKey) with
  | some item =>
      let newQ := item.quantity + qty
      let available : Int :=
        match vOpt with
        | some v => v.quantity
        | none => p.quantity
      if p.track_quantity = true ∧ available < newQ then
        (.badRequest "Cannot add more items.", cart)
      else
        (.updated newQ, updateFirstQuantity cart pid vidKey newQ)
  | none => (.created qty, cart ++ [⟨pid, vidKey, qty⟩])

/-- `AddToCartView.create`: validate, resolve the product and the truthy
variant (404 when missing), then run the duplicate-handling core.  Every
failing path leaves the cart untouched (all writes happen after the
checks, inside `transaction.atomic`). -/
def addToCartView (ps : List Product) (vs : List Variant) (cart : List CartItemRow)
    (pid : Nat) (vid : Option Nat) (qty : Int) : CartResp × List CartItemRow :=
  match addToCartValidate ps vs pid vid qty with
  | .error e => (.badRequest e, cart)
  | .ok _ =>
      match findActiveProduct ps pid with
      | none => (.badRequest "Not found.", cart)
      | some p =>
          match truthyId vid with
          | some v0 =>
              match findActiveVariant vs v0 with
              | none => (.badRequest "Not found.", cart)
              | some v => addToCartCore p (some v) cart pid (some v0) qty
          | none => addToCartCore p none cart pid none qty

/-- The unit price the (amended) claim C6 describes: the caller's explicit
per-item override when supplied and nonzero, else the selected variant's
effective price (the variant's own price if set and nonzero, else the
parent product's price), else the product's price. -/
def claimItemUnitPrice (ps : List Product) (vs : List Variant) (it : ItemData) : Int :=
  let fallback : Int :=
    match truthyId it.variant_id with
    | some vid =>
        match findVariant vs vid with
        | some v => effectivePriceCents ps v
        | none => 0
    | none => ((findProduct ps it.product_id).map Product.priceCents).getD 0
  match it.unit_priceCents with
  | some c => if c ≠ 0 then c else fallback
  | none => fallback

/-- The exact decimal sum the claim describes:
`subtotal = Σ (unit price × quantity)` over the requested items. -/
def claimSubtotal (ps : List Product) (vs : List Variant) (items : List ItemData) : Int :=
  (items.map (fun it => claimItemUnitPrice ps vs it * it.quantity)).sum

/-- Example product used by the concrete counterexample and witness
theorems: id 1, price 10.00 dollars, active, tracked, stock 5. -/
def exProduct1 : Product := ⟨1, 1000, true, true, 5⟩

/-- Example store: only `exProduct1` in the catalog. -/
def exStoreBase : Store := ⟨[exProduct1], [], [], [], [], [], [], 1⟩

/-- Example request: one unit of product 1, no overrides, no payment. -/
def exReqOk : OrderRequest := ⟨[⟨1, none, 1, none⟩], false, none, none, none, none, none⟩

/-- Example request asking for 6 units of product 1 (stock is 5). -/
def exReqTooMany : OrderRequest := ⟨[⟨1, none, 6, none⟩], false, none, none, none, none, none⟩

/-- Example request with a caller-supplied subtotal of 1.00 dollars for a
line whose exact item sum is 10.00 dollars. -/
def exReqSubtotalOverride : OrderRequest :=
  ⟨[⟨1, none, 1, none⟩], false, none, some 100, none, none, none⟩

/-- C1 counterexample catalog: product 1 has stock 1 but its variant 10
has stock 10. -/
def exC1Products : List Product := [⟨1, 1000, true, true, 1⟩]

def exC1Variants : List Variant := [⟨10, 1, none, 10, true⟩]

/-- C1 counterexample line: 5 units of product 1 via variant 10. -/
def exC1Item : ItemData := ⟨1, some 10, 5, none⟩

/-- C1 decrement example: product stock 10, variant stock 8. -/
def exC1DecStore : Store :=
  ⟨[⟨1, 1000, true, true, 10⟩], [⟨10, 1, none, 8, true⟩], [], [], [], [], [], 1⟩

def exC1DecItem : ItemData := ⟨1, some 10, 2, none⟩

/-- A delivered, paid order with total 10.80 dollars. -/
def exDeliveredOrder : OrderRow := ⟨1, .delivered, .completed, 1000, 0, 80, 1080, "standard"⟩

/-- A store holding only `exDeliveredOrder`, with no transaction rows. -/
def exStDelivered : Store := ⟨[], [], [exDeliveredOrder], [], [], [], [], 2⟩

/-- The same store after a checkout-time payment transaction. -/
def exStDeliveredPaid : Store :=
  ⟨[], [], [exDeliveredOrder], [],
   [⟨1, .payment, 1080, "completed", "credit_card"⟩], [], [], 2⟩

/-- A cancelled order in an otherwise empty store. -/
def exStCancelled : Store :=
  ⟨[], [], [⟨1, .cancelled, .pending, 1000, 0, 80, 1080, "standard"⟩],
   [], [], [], [], 2⟩

/-- C6 example catalog for the 165.48-dollar sum. -/
def exC6Products : List Product :=
  [⟨1, 1999, true, false, 0⟩, ⟨2, 550, true, false, 0⟩, ⟨3, 10000, true, false, 0⟩]

/-- C6 example items: 19.99 x 2, 5.50 x 1, 100.00 x 1. -/
def exC6Items : List ItemData :=
  [⟨1, none, 2, some 1999⟩, ⟨2, none, 1, some 550⟩, ⟨3, none, 1, some 10000⟩]

/-- C9 example cart: 3 units of product 1 already in the cart. -/
def exCart : List CartItemRow := [⟨1, none, 3⟩]

/-- Modelled from the spec: the `Order.status` state machine
`pending → confirmed → processing → shipped → delivered`, with `cancelled`
reachable from `{pending, confirmed}` only and `refunded` reachable from
`{delivered, shipped}` only.  Used to state claim C4; the code itself has
no such table. -/
def allowedNext (a b : OrderStatus) : Bool :=
  match a, b with
  | .pending, .confirmed => true
  | .confirmed, .processing => true
  | .processing, .shipped => true
  | .shipped, .delivered => true
  | .pending, .cancelled => true
  | .confirmed, .cancelled => true
  | .delivered, .refunded => true
  | .shipped, .refunded => true
  | _, _ => false

end StoreBackend

namespace StoreBackend

theorem halfEvenDiv100_eight (s : Int) :
    halfEvenDiv100 (s * 8) = claimTaxCents s := by
  have hcast : (s : ℚ) * 8 / 100 + 1 / 2 = ((s * 16 + 100 : Int) : ℚ) / ((200 : ℕ) : ℚ) := by
    push_cast
    ring
  rw [claimTaxCents, round_eq, hcast, Rat.floor_intCast_div_natCast]
  unfold halfEvenDiv100
  dsimp only
  simp only [Nat.cast_ofNat]
  split_ifs <;> omega

theorem getShippingCost_standard (sub : Int) : getShippingCost "standard" sub = 0 := by
  simp [getShippingCost]

theorem getShippingCost_express (sub : Int) : getShippingCost "express" sub = 1599 := by
  simp [getShippingCost]

theorem getShippingCost_overnight (sub : Int) : getShippingCost "overnight" sub = 2999 := by
  simp [getShippingCost]

/-- C7: for every create_order request the shipping method resolves to one
of standard/express/overnight, with unrecognized or absent input defaulting
to standard; the computed shipping cost is the fixed table value
(standard 0.00, express 15.99, overnight 29.99), standard shipping is 0.00
when the subtotal is at least 50 dollars, and express/overnight are never
discounted by subtotal (express on a 30-dollar subtotal is exactly 15.99). -/
theorem c7_shipping_resolution (s : Option String) (subtotalCents : Int) :
    normalizeShippingMethod s ∈ ["standard", "express", "overnight"]
    ∧ ((∀ k ∈ recognizedShippingInputs, s ≠ some k) →
        normalizeShippingMethod s = "standard")
    ∧ getShippingCost "standard" subtotalCents = 0
    ∧ getShippingCost "express" subtotalCents = 1599
    ∧ getShippingCost "overnight" subtotalCents = 2999
    ∧ (5000 ≤ subtotalCents → getShippingCost "standard" subtotalCents = 0)
    ∧ getShippingCost "express" 3000 = 1599 := by
  refine ⟨?_, ?_, getShippingCost_standard _, getShippingCost_express _,
          getShippingCost_overnight _, fun _ => getShippingCost_standard _,
          getShippingCost_express _⟩
  · match s with
    | none => simp [normalizeShippingMethod]
    | some str =>
        simp only [normalizeShippingMethod]
        split_ifs <;> simp
  · intro h
    match s with
    | none => rfl
    | some str =>
        have h1 : str ≠ "Standard Shipping" := fun he =>
          h "Standard Shipping" (by decide) (by rw [he])
        have h2 : str ≠ "Express Shipping" := fun he =>
          h "Express Shipping" (by decide) (by rw [he])
        have h3 : str ≠ "Overnight Shipping" := fun he =>
          h "Overnight Shipping" (by decide) (by rw [he])
        have h4 : str ≠ "standard" := fun he =>
          h "standard" (by decide) (by rw [he])
        have h5 : str ≠ "express" := fun he =>
          h "express" (by decide) (by rw [he])
        have h6 : str ≠ "overnight" := fun he =>
          h "overnight" (by decide) (by rw [he])
        by_cases h0 : str = ""
        · simp [normalizeShippingMethod, h0]
        · simp [normalizeShippingMethod, h0, h1, h2, h3, h4, h5, h6]

/-- Witness for C7 on concrete inputs: the unrecognized method
`Amazon Prime` resolves to standard, and a 60-dollar subtotal ships free
on standard. -/
theorem c7_shipping_resolution_witness :
    normalizeShippingMethod (some "Amazon Prime") = "standard"
    ∧ getShippingCost "standard" 6000 = 0 := by
  have h := c7_shipping_resolution (some "Amazon Prime") 6000
  exact ⟨h.2.1 (by decide), h.2.2.2.2.2.1 (by decide)⟩

theorem createItemAndDecrement_orders {st : Store} {oid : Nat} {it : ItemData}
    {st1 : Store} (h : createItemAndDecrement st oid it = .ok st1) :
    st1.orders = st.orders := by
  unfold createItemAndDecrement at h
  dsimp only at h
  split at h
  · exact absurd h (by simp)
  split at h
  · split at h
    · exact absurd h (by simp)
    · simp only [Except.ok.injEq] at h
      subst h
      split <;> rfl
  · simp only [Except.ok.injEq] at h
    subst h
    split <;> rfl

theorem createItemsLoop_orders {oid : Nat} :
    ∀ {items : List ItemData} {st st1 : Store},
      createItemsLoop oid st items = .ok st1 → st1.orders = st.orders := by
  intro items
  induction items with
  | nil =>
      intro st st1 h
      simp only [createItemsLoop, Except.ok.injEq] at h
      rw [← h]
  | cons it rest ih =>
      intro st st1 h
      unfold createItemsLoop at h
      cases hc : createItemAndDecrement st oid it with
      | error e => rw [hc] at h; exact absurd h (by simp)
      | ok st2 =>
          rw [hc] at h
          rw [ih h, createItemAndDecrement_orders hc]

theorem serializerCore_last_order {st : Store} {req : OrderRequest}
    {s : Store} {oid : Nat} (h : serializerCore st req = .ok (s, oid)) :
    ∃ a o, computeAmounts st.products st.variants req = .ok a
      ∧ s.orders.getLast? = some o
      ∧ o.subtotalCents = a.subtotalCents
      ∧ o.shippingCostCents = a.shippingCostCents
      ∧ o.taxCents = a.taxCents
      ∧ o.totalCents = a.totalCents := by
  unfold serializerCore at h
  split at h
  · exact absurd h (by simp)
  split at h
  · exact absurd h (by simp)
  split at h
  · exact absurd h (by simp)
  rename_i a h3
  dsimp only at h
  split at h
  · exact absurd h (by simp)
  rename_i st2 h4
  simp only [Except.ok.injEq, Prod.mk.injEq] at h
  have horders : st2.orders = st.orders ++ [mkOrderRow st.nextOid a] :=
    createItemsLoop_orders h4
  refine ⟨a, (if req.payment_info then
      { mkOrderRow st.nextOid a with payment_status := .completed }
      else mkOrderRow st.nextOid a), h3, ?_,
      by split <;> rfl, by split <;> rfl, by split <;> rfl, by split <;> rfl⟩
  rw [← h.1]
  by_cases hpay : req.payment_info = true
  · simp only [hpay, if_true, createPaymentTxn, setOrderFields, horders]
    simp [List.getLast?_concat, mkOrderRow]
  · simp only [Bool.not_eq_true] at hpay
    simp only [hpay, Bool.false_eq_true, if_false, horders]
    simp [List.getLast?_concat, mkOrderRow]

/-- C8: without a caller-supplied tax override the persisted `tax_amount`
equals `round(subtotal * 0.08, 2)` (exactly 8.00 dollars of tax on a
100.00-dollar subtotal); a supplied override is persisted verbatim.  The
order header committed by `serializerCore` carries exactly the amounts of
`computeAmounts`. -/
theorem c8_tax_flat_rate :
    (∀ ps vs req a, computeAmounts ps vs req = Except.ok a →
        (req.frontend_tax = none → a.taxCents = claimTaxCents a.subtotalCents)
        ∧ (∀ t, req.frontend_tax = some t → a.taxCents = t))
    ∧ (∀ st req s oid, serializerCore st req = Except.ok (s, oid) →
        ∃ a o, computeAmounts st.products st.variants req = Except.ok a
          ∧ s.orders.getLast? = some o ∧ o.taxCents = a.taxCents
          ∧ o.subtotalCents = a.subtotalCents)
    ∧ claimTaxCents 10000 = 800 := by
  refine ⟨?_, ?_, ?_⟩
  · intro ps vs req a h
    unfold computeAmounts at h
    cases hs : subtotalResolved ps vs req with
    | error e => rw [hs] at h; exact absurd h (by simp)
    | ok subtotal =>
        rw [hs] at h
        simp only [Except.ok.injEq] at h
        subst h
        constructor
        · intro hnone
          simp only [computeAmountsFrom, hnone]
          exact halfEvenDiv100_eight subtotal
        · intro t ht
          simp [computeAmountsFrom, ht]
  · intro st req s oid h
    obtain ⟨a, o, h3, hlast, _, _, htax, _⟩ := serializerCore_last_order h
    exact ⟨a, o, h3, hlast, htax, by assumption⟩
  · rw [← halfEvenDiv100_eight 10000]
    decide

/-- Witness for C8: a concrete request with subtotal 100.00 dollars and no
tax override persists tax 8.00; one with an override of 5.00 persists
5.00. -/
theorem c8_tax_flat_rate_witness :
    (computeAmountsFrom ⟨[], false, none, some 10000, none, none, none⟩ 10000).taxCents = 800
    ∧ (computeAmountsFrom ⟨[], false, none, some 10000, none, some 500, none⟩ 10000).taxCents = 500 := by
  have h := c8_tax_flat_rate
  have h1 := (h.1 [] [] ⟨[], false, none, some 10000, none, none, none⟩
      (computeAmountsFrom ⟨[], false, none, some 10000, none, none, none⟩ 10000)
      rfl).1 rfl
  have h2 := (h.1 [] [] ⟨[], false, none, some 10000, none, some 500, none⟩
      (computeAmountsFrom ⟨[], false, none, some 10000, none, some 500, none⟩ 10000)
      rfl).2 500 rfl
  refine ⟨?_, h2⟩
  rw [h1]
  rw [show (computeAmountsFrom ⟨[], false, none, some 10000, none, none, none⟩ 10000).subtotalCents = 10000 from rfl]
  exact h.2.2

/-- C2: a checkout whose item validation fails leaves the store exactly as
it was — no order, no order item, no stock decrement, no transaction —
and the caller receives an error response.  (The view and the serializer
both run inside `transaction.atomic`.) -/
theorem c2_checkout_atomic (st : Store) (req : OrderRequest) (fx : SideFx)
    (h : exceptIsOk (validateItems st.products req.items) = false) :
    exceptIsOk (orderCreateView st req fx).1 = false
    ∧ (orderCreateView st req fx).2 = st := by
  have hcore : ∃ e, serializerCore st req = .error e := by
    unfold serializerCore
    cases h1 : validateAllItemFields st.products st.variants req.items with
    | error e => exact ⟨e, rfl⟩
    | ok u =>
        cases h2 : validateItems st.products req.items with
        | error e => exact ⟨e, rfl⟩
        | ok u2 => rw [h2] at h; exact absurd h (by simp [exceptIsOk])
  obtain ⟨e, he⟩ := hcore
  have hbody : orderCreateViewBody st req fx = .error e := by
    unfold orderCreateViewBody serializerCreate
    rw [he]
  unfold orderCreateView
  rw [hbody]
  exact ⟨rfl, rfl⟩

/-- Witness for C2: requesting 6 units of a product with stock 5 fails
item validation, and the store is untouched. -/
theorem c2_checkout_atomic_witness :
    exceptIsOk (validateItems exStoreBase.products exReqTooMany.items) = false
    ∧ exceptIsOk (orderCreateView exStoreBase exReqTooMany sideFxNone).1 = false
    ∧ (orderCreateView exStoreBase exReqTooMany sideFxNone).2 = exStoreBase := by
  have h := c2_checkout_atomic exStoreBase exReqTooMany sideFxNone (by decide)
  exact ⟨by decide, h.1, h.2⟩

theorem appendSideRecords_orders (s : Store) (oid : Nat) (fx : SideFx) :
    (appendSideRecords s oid fx).orders = s.orders
    ∧ (appendSideRecords s oid fx).orderItems = s.orderItems
    ∧ (appendSideRecords s oid fx).transactions = s.transactions
    ∧ (appendSideRecords s oid fx).products = s.products
    ∧ (appendSideRecords s oid fx).variants = s.variants := by
  unfold appendSideRecords
  split <;> split <;> exact ⟨rfl, rfl, rfl, rfl, rfl⟩

theorem createInitialDeliveryEvents_fields {s : Store} {oid : Nat} {fx : SideFx}
    {s2 : Store} (h : createInitialDeliveryEvents s oid fx = .ok s2) :
    s2.orders = s.orders ∧ s2.orderItems = s.orderItems
    ∧ s2.transactions = s.transactions ∧ s2.products = s.products
    ∧ s2.variants = s.variants := by
  unfold createInitialDeliveryEvents at h
  split at h
  · exact absurd h (by simp)
  split at h
  · exact absurd h (by simp)
  simp only [Except.ok.injEq] at h
  subst h
  split <;> exact ⟨rfl, rfl, rfl, rfl, rfl⟩

/-- C3 (amended): the serializer-level `OrderStatusHistory` and
`DeliveryEvent` appends are best-effort — their failure changes neither
the response nor any committed order, item, transaction or stock row
compared to a failure-free run.  But a failure of the *view's*
`_create_initial_delivery_events`, raised inside the atomic block, rolls
the entire order back and turns the response into an error. -/
theorem c3_side_records (st : Store) (req : OrderRequest) (fx : SideFx) :
    (fx.viewEventsFail = false →
      (orderCreateView st req fx).1 = (orderCreateView st req sideFxNone).1
      ∧ (orderCreateView st req fx).2.orders = (orderCreateView st req sideFxNone).2.orders
      ∧ (orderCreateView st req fx).2.orderItems = (orderCreateView st req sideFxNone).2.orderItems
      ∧ (orderCreateView st req fx).2.transactions = (orderCreateView st req sideFxNone).2.transactions
      ∧ (orderCreateView st req fx).2.products = (orderCreateView st req sideFxNone).2.products)
    ∧ (fx.viewEventsFail = true → ∀ s oid, serializerCore st req = .ok (s, oid) →
        orderCreateView st req fx = (.error "Failed to create initial delivery events", st)) := by
  constructor
  · intro hv
    cases hc : serializerCore st req with
    | error e =>
        have hb : ∀ g : SideFx, orderCreateViewBody st req g = .error e := by
          intro g
          unfold orderCreateViewBody serializerCreate
          rw [hc]
        unfold orderCreateView
        rw [hb fx, hb sideFxNone]
        exact ⟨rfl, rfl, rfl, rfl, rfl⟩
    | ok pr =>
        obtain ⟨s, oid⟩ := pr
        have hser : ∀ g : SideFx, serializerCreate st req g = .ok (appendSideRecords s oid g, oid) := by
          intro g
          unfold serializerCreate
          rw [hc]
        have hordfx := appendSideRecords_orders s oid fx
        have hord0 := appendSideRecords_orders s oid sideFxNone
        cases hfind : s.orders.find? (fun o => o.oid == oid) with
        | none =>
            have hev : ∀ g : SideFx, g.viewEventsFail = false →
                createInitialDeliveryEvents (appendSideRecords s oid g) oid g = .error "Failed to create initial delivery events" := by
              intro g hg
              unfold createInitialDeliveryEvents
              rw [hg, (appendSideRecords_orders s oid g).1, hfind]
              rfl
            unfold orderCreateView orderCreateViewBody
            rw [hser fx, hser sideFxNone]
            dsimp only
            rw [hev fx hv, hev sideFxNone rfl]
            exact ⟨rfl, rfl, rfl, rfl, rfl⟩
        | some o =>
            have hev : ∀ g : SideFx, g.viewEventsFail = false →
                ∃ s2, createInitialDeliveryEvents (appendSideRecords s oid g) oid g = .ok s2
                  ∧ s2.orders = s.orders ∧ s2.orderItems = s.orderItems
                  ∧ s2.transactions = s.transactions ∧ s2.products = s.products := by
              intro g hg
              cases he : createInitialDeliveryEvents (appendSideRecords s oid g) oid g with
              | error e =>
                  exfalso
                  unfold createInitialDeliveryEvents at he
                  rw [hg, (appendSideRecords_orders s oid g).1, hfind] at he
                  dsimp only at he
                  split at he <;> simp_all
              | ok s2 =>
                  have hf := createInitialDeliveryEvents_fields he
                  have ha := appendSideRecords_orders s oid g
                  exact ⟨s2, rfl, hf.1.trans ha.1, hf.2.1.trans ha.2.1,
                         hf.2.2.1.trans ha.2.2.1, hf.2.2.2.1.trans ha.2.2.2.1⟩
            obtain ⟨s2f, he2f, hf1, hf2, hf3, hf4⟩ := hev fx hv
            obtain ⟨s20, he20, h01, h02, h03, h04⟩ := hev sideFxNone rfl
            unfold orderCreateView orderCreateViewBody
            rw [hser fx, hser sideFxNone]
            dsimp only
            rw [he2f, he20]
            exact ⟨rfl, hf1.trans h01.symm, hf2.trans h02.symm,
                   hf3.trans h03.symm, hf4.trans h04.symm⟩
  · intro hv s oid hc
    have hbody : orderCreateViewBody st req fx = .error "Failed to create initial delivery events" := by
      unfold orderCreateViewBody serializerCreate
      rw [hc]
      dsimp only
      unfold createInitialDeliveryEvents
      rw [hv]
      rfl
    unfold orderCreateView
    rw [hbody]

/-- C3 counterexample to the claim as stated: a valid one-item checkout
whose primary steps succeed (`serializerCore` returns ok) is nevertheless
rolled back — and the caller receives an error — when the side-record
append performed by the view (`_create_initial_delivery_events`) fails. -/
theorem c3_counterexample :
    exceptIsOk (serializerCore exStoreBase exReqOk) = true
    ∧ orderCreateView exStoreBase exReqOk ⟨false, false, true⟩
        = (Except.error "Failed to create initial delivery events", exStoreBase) := by
  constructor
  · decide
  · rfl

/-- Witness for C3 (amended), at a concrete successful checkout with both
serializer-level side-record appends failing: the response matches the
failure-free run, as do the committed orders; and with the view-level
failure the store rolls back. -/
theorem c3_side_records_witness :
    (orderCreateView exStoreBase exReqOk ⟨true, true, false⟩).1
      = (orderCreateView exStoreBase exReqOk sideFxNone).1
    ∧ (orderCreateView exStoreBase exReqOk ⟨true, true, false⟩).2.orders
      = (orderCreateView exStoreBase exReqOk sideFxNone).2.orders
    ∧ orderCreateView exStoreBase exReqOk ⟨true, true, true⟩
        = (.error "Failed to create initial delivery events", exStoreBase) := by
  have h := c3_side_records exStoreBase exReqOk ⟨true, true, false⟩
  have h2 := c3_side_records exStoreBase exReqOk ⟨true, true, true⟩
  refine ⟨(h.1 rfl).1, (h.1 rfl).2.1, ?_⟩
  exact h2.2 rfl _ _ (by rfl)

/-- C1 counterexample to the claim as stated: product 1 has stock 1 while
its selected variant 10 has stock 10, and a request for 5 units — within
the variant's stock — is rejected by `validate_items` (which compares
against the product's stock); moreover, for a variant line the decrement
changes the product's stock row and leaves the variant row untouched. -/
theorem c1_counterexample :
    validateItems exC1Products [exC1Item] = Except.error "Insufficient stock"
    ∧ findActiveVariant exC1Variants 10 = some ⟨10, 1, none, 10, true⟩
    ∧ exC1Item.quantity = 5 ∧ ((5 : Int) ≤ 10)
    ∧ createItemAndDecrement exC1DecStore 1 exC1DecItem
        = Except.ok ⟨[⟨1, 1000, true, true, 8⟩], [⟨10, 1, none, 8, true⟩],
            [], [⟨1, 1, some 10, 2, 1000, 2000⟩], [], [], [], 1⟩ := by
  exact ⟨rfl, by decide, by decide, by decide, rfl⟩

/-- C1 (amended): for a tracked product the insufficient-stock validation
compares the requested quantity against the **product's** stock quantity
whether or not a variant is selected, and the stock decrement subtracts
the ordered quantity from the **product's** stock row, never from the
variant's; for `track_quantity = false` products stock is neither checked
nor changed. -/
theorem c1_stock_uses_product (ps : List Product) (it : ItemData) (p : Product)
    (hp : findActiveProduct ps it.product_id = some p) :
    (validateItems ps [it] = Except.ok ()
      ↔ (p.track_quantity = true → it.quantity ≤ p.quantity))
    ∧ (∀ st oid st1, createItemAndDecrement st oid it = Except.ok st1 →
        st1.variants = st.variants
        ∧ ∀ q, findProduct st.products it.product_id = some q →
            (q.track_quantity = true →
              st1.products = decrementProducts st.products it.product_id it.quantity)
            ∧ (q.track_quantity = false → st1.products = st.products)) := by
  constructor
  · have hval : validateItems ps [it] =
        if p.track_quantity = true ∧ p.quantity < it.quantity then
          Except.error "Insufficient stock" else Except.ok () := by
      unfold validateItems validateItemsLoop
      rw [hp]
      simp only [List.isEmpty_cons, Bool.false_eq_true, if_false]
      split <;> rfl
    rw [hval]
    split_ifs with hc
    · refine ⟨fun h => absurd h (by simp), fun h => absurd (h hc.1) (by omega)⟩
    · refine ⟨fun _ ht => ?_, fun _ => rfl⟩
      by_contra hlt
      exact hc ⟨ht, by omega⟩
  · intro st oid st1 h
    unfold createItemAndDecrement at h
    dsimp only at h
    split at h
    · exact absurd h (by simp)
    rename_i q0 hq0
    have hmain : ∀ q, findProduct st.products it.product_id = some q → q0 = q := by
      intro q hq
      rw [hq0] at hq
      exact Option.some_inj.mp hq
    split at h
    · split at h
      · exact absurd h (by simp)
      · simp only [Except.ok.injEq] at h
        subst h
        refine ⟨by split <;> rfl, ?_⟩
        intro q hq
        obtain rfl := hmain q hq
        constructor
        · intro ht
          rw [if_pos ht]
        · intro ht
          rw [if_neg (by simp [ht])]
    · simp only [Except.ok.injEq] at h
      subst h
      refine ⟨by split <;> rfl, ?_⟩
      intro q hq
      obtain rfl := hmain q hq
      constructor
      · intro ht
        rw [if_pos ht]
      · intro ht
        rw [if_neg (by simp [ht])]

/-- Witness for C1 (amended): a no-variant request for 3 units of a
tracked product with stock 5 validates, and a concrete decrement run
leaves the variant table unchanged. -/
theorem c1_stock_uses_product_witness :
    validateItems [exProduct1] [⟨1, none, 3, none⟩] = Except.ok ()
    ∧ ∃ st1, createItemAndDecrement exC1DecStore 1 (⟨1, none, 3, none⟩ : ItemData)
        = Except.ok st1 ∧ st1.variants = exC1DecStore.variants := by
  have h := c1_stock_uses_product [exProduct1] (⟨1, none, 3, none⟩ : ItemData)
    exProduct1 rfl
  refine ⟨h.1.mpr (fun _ => by decide), ?_⟩
  have h2 := h.2 exC1DecStore 1 _ rfl
  exact ⟨_, rfl, h2.1⟩

theorem find?_oid_map (g : OrderRow → OrderRow) (hg : ∀ r, (g r).oid = r.oid)
    (oid : Nat) :
    ∀ (l : List OrderRow) (o : OrderRow),
      l.find? (fun r => r.oid == oid) = some o →
      (l.map g).find? (fun r => r.oid == oid) = some (g o) := by
  intro l
  induction l with
  | nil => intro o h; simp at h
  | cons a rest ih =>
      intro o h
      cases ha : (a.oid == oid) with
      | false =>
          simp only [List.find?_cons, ha] at h
          simp only [List.map_cons, List.find?_cons, hg, ha]
          exact ih o h
      | true =>
          simp only [List.find?_cons, ha, Option.some.injEq] at h
          subst h
          simp only [List.map_cons, List.find?_cons, hg, ha]

theorem find?_setOrderFields (st : Store) (oid : Nat) (f : OrderRow → OrderRow)
    (hf : ∀ r, (f r).oid = r.oid) (o : OrderRow)
    (h : st.orders.find? (fun r => r.oid == oid) = some o) :
    (setOrderFields st oid f).orders.find? (fun r => r.oid == oid) = some (f o) := by
  have hg : ∀ r : OrderRow, ((fun r => if r.oid == oid then f r else r) r).oid = r.oid := by
    intro r
    dsimp only
    split
    · exact hf r
    · rfl
  have hmap := find?_oid_map (fun r => if r.oid == oid then f r else r) hg oid st.orders o h
  have ho : (o.oid == oid) = true := by
    have := List.find?_some h
    simpa using this
  simp only [setOrderFields]
  rw [hmap]
  simp [ho]

/-- C4 counterexample to the claim as stated: through the order-update
operation a `delivered` order can be set straight back to `pending` — a
transition outside the documented machine — with a success response and
the status actually changed. -/
theorem c4_counterexample :
    (orderUpdateApply exStDelivered 1 (some .pending)).1 = UpdateResp.ok
    ∧ orderStatusIn (orderUpdateApply exStDelivered 1 (some .pending)).2 1
        = some .pending
    ∧ allowedNext .delivered .pending = false := by
  exact ⟨rfl, rfl, rfl⟩

/-- C4 (amended): the cancel operation enforces its gate — rejected with a
message naming the current status, and the store unchanged, unless the
status is in pending/confirmed, in which case the status becomes
cancelled; the refund operation enforces its gate (only delivered/shipped);
but the admin order-update operation performs no transition validation at
all: any requested status is applied from any current status. -/
theorem c4_status_transitions (st : Store) (oid : Nat) (o : OrderRow)
    (h : st.orders.find? (fun r => r.oid == oid) = some o) :
    (¬(o.status = .pending ∨ o.status = .confirmed) →
        orderCancelView st oid = (.cannotCancel o.status, st))
    ∧ ((o.status = .pending ∨ o.status = .confirmed) →
        (orderCancelView st oid).1 = CancelResp.ok
        ∧ orderStatusIn (orderCancelView st oid).2 oid = some .cancelled)
    ∧ (∀ amt, ¬(o.status = .delivered ∨ o.status = .shipped) →
        refundOrderView st oid amt = (.invalidState o.status, st))
    ∧ (∀ ns, (orderUpdateApply st oid (some ns)).1 = UpdateResp.ok
        ∧ orderStatusIn (orderUpdateApply st oid (some ns)).2 oid = some ns) := by
  refine ⟨?_, ?_, ?_, ?_⟩
  · intro hno
    unfold orderCancelView
    rw [h]
    dsimp only
    rw [if_neg hno]
  · intro hyes
    unfold orderCancelView
    rw [h]
    dsimp only
    rw [if_pos hyes]
    refine ⟨rfl, ?_⟩
    unfold orderStatusIn
    dsimp only
    rw [find?_setOrderFields st oid
      (fun r => { r with status := OrderStatus.cancelled }) (fun r => rfl) o h]
    rfl
  · intro amt hno
    unfold refundOrderView
    rw [h]
    dsimp only
    rw [if_neg hno]
  · intro ns
    unfold orderUpdateApply
    rw [h]
    dsimp only
    refine ⟨rfl, ?_⟩
    unfold orderStatusIn
    have hfind := find?_setOrderFields st oid
      (fun r => { r with status := ns }) (fun r => rfl) o h
    split
    · dsimp only
      rw [hfind]
      rfl
    · rw [hfind]
      rfl

/-- Witness for C4 (amended) on a delivered order: cancel is rejected with
the message naming `delivered`, refund of a pending order is rejected, and
the update operation pushes the delivered order to `confirmed`. -/
theorem c4_status_transitions_witness :
    orderCancelView exStDelivered 1 = (.cannotCancel .delivered, exStDelivered)
    ∧ (orderUpdateApply exStDelivered 1 (some .confirmed)).1 = UpdateResp.ok
    ∧ orderStatusIn (orderUpdateApply exStDelivered 1 (some .confirmed)).2 1
        = some .confirmed := by
  have h := c4_status_transitions exStDelivered 1 exDeliveredOrder rfl
  exact ⟨h.1 (by decide), (h.2.2.2 .confirmed).1, (h.2.2.2 .confirmed).2⟩

/-- C5 counterexample to the claim as stated: a refund of 20.00 dollars
against a delivered order whose total is 10.80 dollars is accepted — the
response is a success naming the amount and the transaction row records
it verbatim; no code path rejects an amount above the order total. -/
theorem c5_counterexample :
    (refundOrderView exStDelivered 1 (some 2000)).1 = RefundResp.ok 2000
    ∧ exDeliveredOrder.totalCents < (2000 : Int)
    ∧ (refundOrderView exStDelivered 1 (some 2000)).2.transactions.map
        TxnRow.amountCents = [2000] := by
  exact ⟨rfl, by decide, rfl⟩

/-- C5 (amended): refund succeeds only from delivered/shipped (otherwise
an invalid-state error naming the current status, and the store is
unchanged); the amount defaults to the order's total when unspecified; but
the requested amount is never validated against the total — whatever
amount the caller supplies is recorded verbatim. -/
theorem c5_refund_gate_and_amount (st : Store) (oid : Nat) (amt : Option Int)
    (o : OrderRow) (h : st.orders.find? (fun r => r.oid == oid) = some o) :
    (¬(o.status = .delivered ∨ o.status = .shipped) →
        refundOrderView st oid amt = (.invalidState o.status, st))
    ∧ ((o.status = .delivered ∨ o.status = .shipped) →
        st.transactions.find? (fun t => t.orderOid == oid) = none →
        (refundOrderView st oid amt).1 = RefundResp.ok (amt.getD o.totalCents)
        ∧ (refundOrderView st oid amt).2.transactions.map TxnRow.amountCents
            = st.transactions.map TxnRow.amountCents ++ [amt.getD o.totalCents]) := by
  constructor
  · intro hno
    unfold refundOrderView
    rw [h]
    dsimp only
    rw [if_neg hno]
  · intro hyes hnotxn
    unfold refundOrderView
    rw [h]
    dsimp only
    rw [if_pos hyes, hnotxn]
    exact ⟨rfl, by simp [setOrderFields]⟩

/-- Witness for C5 (amended): refunding the delivered order without an
amount yields its total 10.80; refunding a cancelled order is rejected. -/
theorem c5_refund_gate_and_amount_witness :
    (refundOrderView exStDelivered 1 none).1 = RefundResp.ok 1080
    ∧ refundOrderView exStCancelled 1 none
      = (.invalidState .cancelled, exStCancelled) := by
  constructor
  · exact ((c5_refund_gate_and_amount exStDelivered 1 none exDeliveredOrder rfl).2
      (by decide) rfl).1
  · exact (c5_refund_gate_and_amount exStCancelled 1 none
      ⟨1, .cancelled, .pending, 1000, 0, 80, 1080, "standard"⟩ rfl).1 (by decide)

/-- C10: for any order that already has a transaction row (any order paid
at checkout), the refund operation fails with an error response — the
one-to-one Order-Transaction relation makes the second insert an
`IntegrityError` when the status gate is passed, and the status gate
itself fails otherwise — and the store, in particular the order's status
and payment status, is left completely unchanged. -/
theorem c10_refund_second_transaction (st : Store) (oid : Nat) (amt : Option Int)
    (t : TxnRow) (h : st.transactions.find? (fun tx => tx.orderOid == oid) = some t) :
    refundSucceeded (refundOrderView st oid amt).1 = false
    ∧ (refundOrderView st oid amt).2 = st := by
  unfold refundOrderView
  cases hfo : st.orders.find? (fun o => o.oid == oid) with
  | none => exact ⟨rfl, rfl⟩
  | some o =>
      dsimp only
      split
      · rw [h]
        exact ⟨rfl, rfl⟩
      · exact ⟨rfl, rfl⟩

/-- Witness for C10: the delivered, checkout-paid order cannot be
refunded; the store is unchanged. -/
theorem c10_refund_second_transaction_witness :
    refundSucceeded (refundOrderView exStDeliveredPaid 1 none).1 = false
    ∧ (refundOrderView exStDeliveredPaid 1 none).2 = exStDeliveredPaid := by
  exact c10_refund_second_transaction exStDeliveredPaid 1 none
    ⟨1, .payment, 1080, "completed", "credit_card"⟩ rfl

theorem resolveUnitPrice_eq_claim {ps : List Product} {vs : List Variant}
    {it : ItemData} {u : Int} (h : resolveUnitPrice ps vs it = .ok u) :
    u = claimItemUnitPrice ps vs it := by
  unfold resolveUnitPrice at h
  split at h
  · exact absurd h (by simp)
  rename_i p hp
  split at h
  · rename_i vid hvid
    split at h
    · exact absurd h (by simp)
    rename_i v hv
    simp only [Except.ok.injEq] at h
    subst h
    simp [claimItemUnitPrice, hvid, hv]
  · rename_i hvid
    simp only [Except.ok.injEq] at h
    subst h
    simp [claimItemUnitPrice, hvid, hp]

theorem computeSubtotalLoop_claim {ps : List Product} {vs : List Variant} :
    ∀ {items : List ItemData} {acc s : Int},
      computeSubtotalLoop ps vs items acc = .ok s →
      s = acc + claimSubtotal ps vs items := by
  intro items
  induction items with
  | nil =>
      intro acc s h
      simp only [computeSubtotalLoop, Except.ok.injEq] at h
      simp [claimSubtotal, ← h]
  | cons it rest ih =>
      intro acc s h
      unfold computeSubtotalLoop at h
      split at h
      · exact absurd h (by simp)
      rename_i u hu
      have hs := ih h
      rw [resolveUnitPrice_eq_claim hu] at hs
      simp only [claimSubtotal, List.map_cons, List.sum_cons] at hs ⊢
      rw [hs]
      ring

/-- C6 counterexample to the claim as stated, in two parts.  First, the
claim's own worked example is wrong for this code: 19.99 x 2 + 5.50 +
100.00 computes to 145.48 dollars, not 165.48.  Second, the claim's
universal quantification over requests fails: a caller-supplied subtotal
override (here 1.00 dollars against an exact item sum of 10.00 dollars)
is persisted verbatim instead of the sum. -/
theorem c6_counterexample :
    computeSubtotal exC6Products [] exC6Items = Except.ok 14548
    ∧ (14548 : Int) ≠ 16548
    ∧ claimSubtotal exStoreBase.products exStoreBase.variants
        exReqSubtotalOverride.items = 1000
    ∧ subtotalResolved exStoreBase.products exStoreBase.variants
        exReqSubtotalOverride = Except.ok 100
    ∧ (orderCreateView exStoreBase exReqSubtotalOverride sideFxNone).2.orders.map
        OrderRow.subtotalCents = [100]
    ∧ (100 : Int) ≠ 1000 := by
  exact ⟨rfl, by decide, by decide, rfl, rfl, by decide⟩

/-- C6 (amended): for every create_order request **without a
caller-supplied subtotal override**, the persisted subtotal equals the
exact decimal sum over the requested items of unit price times quantity,
where each item's unit price is the caller's explicit per-item override
when supplied **and nonzero**, else the selected variant's effective price
(the variant's own price if set and nonzero, else the parent product's
price), else the product's price; the claim's example items 19.99 x 2,
5.50 x 1, 100.00 x 1 yield subtotal 145.48 dollars, all with exact decimal
arithmetic. -/
theorem c6_subtotal_exact_sum :
    (∀ ps vs items s, computeSubtotal ps vs items = Except.ok s →
        s = claimSubtotal ps vs items)
    ∧ (∀ ps vs req s, req.frontend_subtotal = none →
        subtotalResolved ps vs req = Except.ok s →
        s = claimSubtotal ps vs req.items)
    ∧ (∀ st req s oid, req.frontend_subtotal = none →
        serializerCore st req = Except.ok (s, oid) →
        ∃ o, s.orders.getLast? = some o
          ∧ o.subtotalCents = claimSubtotal st.products st.variants req.items)
    ∧ computeSubtotal exC6Products [] exC6Items = Except.ok 14548 := by
  have hmain : ∀ (ps : List Product) (vs : List Variant) (items : List ItemData)
      (s : Int), computeSubtotal ps vs items = Except.ok s →
      s = claimSubtotal ps vs items := by
    intro ps vs items s h
    have := computeSubtotalLoop_claim h
    simpa using this
  have hres : ∀ (ps : List Product) (vs : List Variant) (req : OrderRequest)
      (s : Int), req.frontend_subtotal = none →
      subtotalResolved ps vs req = Except.ok s →
      s = claimSubtotal ps vs req.items := by
    intro ps vs req s hn h
    unfold subtotalResolved at h
    rw [hn] at h
    exact hmain ps vs req.items s h
  refine ⟨hmain, hres, ?_, rfl⟩
  intro st req s oid hn h
  obtain ⟨a, o, hca, hlast, hsub, _, _, _⟩ := serializerCore_last_order h
  unfold computeAmounts at hca
  cases hs : subtotalResolved st.products st.variants req with
  | error e => rw [hs] at hca; exact absurd hca (by simp)
  | ok s0 =>
      rw [hs] at hca
      simp only [Except.ok.injEq] at hca
      refine ⟨o, hlast, ?_⟩
      rw [hsub, ← hca]
      exact hres st.products st.variants req s0 hn hs

/-- Witness for C6 (amended): the example items sum to exactly 145.48
dollars through the code path and through the claim's formula. -/
theorem c6_subtotal_exact_sum_witness :
    claimSubtotal exC6Products [] exC6Items = 14548 := by
  exact (c6_subtotal_exact_sum.1 exC6Products [] exC6Items 14548 rfl).symm

theorem updateFirstQuantity_key_map (pid : Nat) (vid : Option Nat) (q : Int) :
    ∀ cart : List CartItemRow,
      (updateFirstQuantity cart pid vid q).map cartKey = cart.map cartKey := by
  intro cart
  induction cart with
  | nil => rfl
  | cons r rest ih =>
      unfold updateFirstQuantity
      split
      · rfl
      · simp only [List.map_cons, ih]

theorem updateFirstQuantity_length (pid : Nat) (vid : Option Nat) (q : Int) :
    ∀ cart : List CartItemRow,
      (updateFirstQuantity cart pid vid q).length = cart.length := by
  intro cart
  induction cart with
  | nil => rfl
  | cons r rest ih =>
      unfold updateFirstQuantity
      split
      · rfl
      · simp only [List.length_cons, ih]

theorem addToCartCore_spec (p : Product) (vOpt : Option Variant)
    (cart : List CartItemRow) (pid : Nat) (vidKey : Option Nat) (qty : Int) :
    ((cart.map cartKey).Nodup →
      (((addToCartCore p vOpt cart pid vidKey qty).2).map cartKey).Nodup)
    ∧ (∀ item, cart.find? (fun r => r.product_id == pid && r.variant_id == vidKey)
          = some item →
        ((addToCartCore p vOpt cart pid vidKey qty).2).length = cart.length
        ∧ (∀ q, (addToCartCore p vOpt cart pid vidKey qty).1 = CartResp.updated q →
            q = item.quantity + qty)
        ∧ (p.track_quantity = true →
            (match vOpt with | some v => v.quantity | none => p.quantity)
              < item.quantity + qty →
            addToCartCore p vOpt cart pid vidKey qty
              = (.badRequest "Cannot add more items.", cart))) := by
  unfold addToCartCore
  cases hf : cart.find? (fun r => r.product_id == pid && r.variant_id == vidKey) with
  | none =>
      dsimp only
      constructor
      · intro hnd
        rw [List.map_append]
        refine List.Nodup.append hnd (List.nodup_singleton _) ?_
        intro x hx hy
        simp only [List.map_cons, List.map_nil, List.mem_singleton] at hy
        subst hy
        simp only [List.mem_map] at hx
        obtain ⟨r, hr, hkey⟩ := hx
        have hpred := List.find?_eq_none.mp hf r hr
        simp only [Bool.and_eq_true, beq_iff_eq, not_and] at hpred
        have hk : r.product_id = pid ∧ r.variant_id = vidKey := by
          simpa [cartKey, Prod.ext_iff] using hkey
        exact hpred hk.1 hk.2
      · intro item hitem
        exact Option.noConfusion hitem
  | some item0 =>
      dsimp only
      split
      · rename_i hcond
        constructor
        · intro hnd
          exact hnd
        · intro item hitem
          injection hitem with hitem
          subst hitem
          refine ⟨rfl, ?_, fun _ _ => rfl⟩
          intro q hq
          cases hq
      · rename_i hcond
        constructor
        · intro hnd
          rw [updateFirstQuantity_key_map]
          exact hnd
        · intro item hitem
          injection hitem with hitem
          subst hitem
          refine ⟨updateFirstQuantity_length _ _ _ _, ?_, ?_⟩
          · intro q hq
            injection hq with hq
            exact hq.symm
          · intro htrack hover
            exact absurd ⟨htrack, hover⟩ hcond

/-- C9: repeated add-to-cart calls with the same (product, variant) key
accumulate quantity in the existing row rather than duplicating it —
key-uniqueness of the cart is preserved and the row count does not grow —
and, for a tracked product, the call fails with an error (leaving the cart
unchanged) as soon as the combined quantity would exceed the stock of the
selected variant (else of the product). -/
theorem c9_add_to_cart (ps : List Product) (vs : List Variant)
    (cart : List CartItemRow) (pid : Nat) (vid : Option Nat) (qty : Int) :
    ((cart.map cartKey).Nodup →
      (((addToCartView ps vs cart pid vid qty).2).map cartKey).Nodup)
    ∧ (∀ item, cart.find?
          (fun r => r.product_id == pid && r.variant_id == truthyId vid) = some item →
        ((addToCartView ps vs cart pid vid qty).2).length = cart.length
        ∧ (∀ q, (addToCartView ps vs cart pid vid qty).1 = CartResp.updated q →
            q = item.quantity + qty))
    ∧ (∀ item p, cart.find?
          (fun r => r.product_id == pid && r.variant_id == truthyId vid) = some item →
        findActiveProduct ps pid = some p → p.track_quantity = true →
        ((∀ v0 v, truthyId vid = some v0 → findActiveVariant vs v0 = some v →
            v.quantity < item.quantity + qty →
            ∃ m, addToCartView ps vs cart pid vid qty = (.badRequest m, cart))
         ∧ (truthyId vid = none → p.quantity < item.quantity + qty →
            ∃ m, addToCartView ps vs cart pid vid qty = (.badRequest m, cart)))) := by
  unfold addToCartView
  cases hval : addToCartValidate ps vs pid vid qty with
  | error e =>
      dsimp only
      refine ⟨fun hnd => hnd, fun item _ => ⟨rfl, fun q hq => by cases hq⟩,
              fun item p _ _ _ => ⟨fun _ _ _ _ _ => ⟨e, rfl⟩, fun _ _ => ⟨e, rfl⟩⟩⟩
  | ok u =>
      dsimp only
      cases hfp : findActiveProduct ps pid with
      | none =>
          dsimp only
          refine ⟨fun hnd => hnd, fun item _ => ⟨rfl, fun q hq => by cases hq⟩,
                  fun item p hitem hp _ => Option.noConfusion hp⟩
      | some p0 =>
          dsimp only
          cases htv : truthyId vid with
          | some v0 =>
              dsimp only
              cases hfv : findActiveVariant vs v0 with
              | none =>
                  dsimp only
                  refine ⟨fun hnd => hnd,
                          fun item _ => ⟨rfl, fun q hq => by cases hq⟩,
                          fun item p _ _ _ =>
                            ⟨fun _ _ _ _ _ => ⟨"Not found.", rfl⟩,
                             fun hnone _ => ⟨"Not found.", rfl⟩⟩⟩
              | some v =>
                  dsimp only
                  have hcore := addToCartCore_spec p0 (some v) cart pid (some v0) qty
                  refine ⟨hcore.1, ?_, ?_⟩
                  · intro item hitem
                    exact ⟨(hcore.2 item hitem).1, (hcore.2 item hitem).2.1⟩
                  · intro item p hitem hp htrack
                    injection hp with hp
                    subst hp
                    constructor
                    · intro v0x vx hv0 hvx hover
                      injection hv0 with hv0
                      subst hv0
                      rw [hfv] at hvx
                      injection hvx with hvx
                      subst hvx
                      exact ⟨"Cannot add more items.",
                        (hcore.2 item hitem).2.2 htrack hover⟩
                    · intro hnone
                      exact Option.noConfusion hnone
          | none =>
              dsimp only
              have hcore := addToCartCore_spec p0 none cart pid none qty
              refine ⟨hcore.1, ?_, ?_⟩
              · intro item hitem
                exact ⟨(hcore.2 item hitem).1, (hcore.2 item hitem).2.1⟩
              · intro item p hitem hp htrack
                injection hp with hp
                subst hp
                constructor
                · intro v0x vx hv0 hvx hover
                  exact Option.noConfusion hv0
                · intro hnone hover
                  exact ⟨"Cannot add more items.",
                    (hcore.2 item hitem).2.2 htrack hover⟩

/-- Witness for C9: with product 1 (stock 5, tracked) and 3 units already
in the cart, adding 2 more updates the single row to 5, and adding 3 more
is rejected with the cart unchanged. -/
theorem c9_add_to_cart_witness :
    addToCartView [exProduct1] [] exCart 1 none 2
      = (CartResp.updated 5, [⟨1, none, 5⟩])
    ∧ (∃ m, addToCartView [exProduct1] [] exCart 1 none 3
        = (.badRequest m, exCart))
    ∧ ((addToCartView [exProduct1] [] exCart 1 none 2).2).length = exCart.length := by
  have h := c9_add_to_cart [exProduct1] [] exCart 1 none 3
  have h2 := c9_add_to_cart [exProduct1] [] exCart 1 none 2
  refine ⟨rfl, ?_, ((h2.2.1 ⟨1, none, 3⟩ rfl).1)⟩
  exact ((h.2.2 ⟨1, none, 3⟩ exProduct1 rfl rfl rfl).2 rfl (by decide))

end StoreBackend
